import Mathlib

/-!
Shallow embedding of the testable core of `src/src/App.tsx` (the BIO-NOSE
food-spoilage dashboard): the verdict classifier `getVerdict`, the rolling
history buffer, the simulated stream generator, manual injection, and the
session state machine governing the generator interval.  JavaScript numbers
are embedded as exact rationals (ℚ); each `Math.random()` call is an explicit
parameter assumed to lie in [0, 1).
-/

/-- Verdict status tag, the string union in App.tsx line 17. -/
inductive Status where
  | SPOILED
  | FRESH
deriving DecidableEq

/-- SensorData (App.tsx lines 5-10): four gas-sensor channels. -/
structure SensorData where
  mq3 : ℚ
  mq4 : ℚ
  mq8 : ℚ
  mq135 : ℚ
deriving DecidableEq

/-- HistoryData (App.tsx lines 12-14): a sensor snapshot plus a display
timestamp string. -/
structure HistoryData where
  time : String
  mq3 : ℚ
  mq4 : ℚ
  mq8 : ℚ
  mq135 : ℚ
deriving DecidableEq

/-- Verdict (App.tsx lines 16-21).  `confidence` is the already-formatted
string, exactly as the component stores it. -/
structure Verdict where
  status : Status
  label : String
  confidence : String
  details : String
deriving DecidableEq

/-- JS `Math.min` on two (non-NaN) numbers. -/
def jsMin (a b : ℚ) : ℚ := if a ≤ b then a else b

/-- The binary `Math.min` agrees with the order-theoretic minimum on ℚ. -/
lemma jsMin_eq_min (a b : ℚ) : jsMin a b = min a b := (min_def a b).symm

/-- Formats a non-negative count of hundredths as a decimal string with
exactly two fraction digits (helper for `toFixed2`). -/
def fmtHundredths (m : ℕ) : String :=
  toString (m / 100) ++ "." ++ (if m % 100 < 10 then "0" else "") ++ toString (m % 100)

/-- Rounding used by `Number.prototype.toFixed` on a non-negative argument:
the integer n minimising the distance of n/100 to the argument, ties taking
the larger n, i.e. the floor of 100·q + 1/2. -/
def toFixed2Nonneg (q : ℚ) : String :=
  fmtHundredths (Int.toNat ⌊q * 100 + 1 / 2⌋)

/-- JS `x.toFixed(2)` on an exact rational: negative arguments format the
negated value behind a sign, as ECMA-262 prescribes. -/
def toFixed2 (q : ℚ) : String :=
  if q < 0 then "-" ++ toFixed2Nonneg (-q) else toFixed2Nonneg q

/-- Evaluation helper: `toFixed2` of a non-negative rational whose rounded
hundredths count is `n` is the two-decimal rendering of `n`. -/
lemma toFixed2_eq_fmt (q : ℚ) (n : ℕ) (h0 : ¬ q < 0)
    (h : Int.toNat ⌊q * 100 + 1 / 2⌋ = n) : toFixed2 q = fmtHundredths n := by
  unfold toFixed2 toFixed2Nonneg
  rw [if_neg h0, h]

/-- Confidence value computed inside `getVerdict` before display formatting
(App.tsx lines 103-107): threshold 300, one linear ramp per branch, capped
at 99.9 by `Math.min`. -/
def confidenceOf (data : SensorData) : ℚ :=
  if data.mq3 > 300 then jsMin 99.9 (85 + (data.mq3 - 300) * 0.1)
  else jsMin 99.9 (90 + (300 - data.mq3) * 0.05)

/-- getVerdict (App.tsx lines 102-117): threshold comparison on the MQ3
channel alone, fixed label/details strings per branch, confidence formatted
to two decimals. -/
def getVerdict (data : SensorData) : Verdict :=
  { status := if data.mq3 > 300 then Status.SPOILED else Status.FRESH
    label := if data.mq3 > 300 then "BUSUK (Terdeteksi Fermentasi)" else "SEGAR (Layak Konsumsi)"
    confidence := toFixed2 (confidenceOf data)
    details := if data.mq3 > 300 then
        "Kadar alkohol tinggi terdeteksi oleh sensor MQ3, mengindikasikan aktivitas mikroba."
      else
        "Profil gas dalam batas normal. Tidak ada tanda fermentasi signifikan." }

/-- C1: for every reading, `getVerdict` returns status SPOILED exactly when
the primary channel mq3 is strictly greater than 300, and a reading with
mq3 = 300 is classified FRESH. -/
theorem getVerdict_spoiled_iff_gt_300 :
    (∀ data : SensorData, (getVerdict data).status = Status.SPOILED ↔ data.mq3 > 300) ∧
    (getVerdict ⟨300, 0, 0, 0⟩).status = Status.FRESH := by
  constructor
  · intro data
    by_cases h : data.mq3 > 300 <;> simp [getVerdict, h]
  · norm_num [getVerdict]

/-- C2: the confidence value equals min(99.9, 85 + (p − 300)·0.1) when
p > 300 and min(99.9, 90 + (300 − p)·0.05) otherwise, is reported to two
decimal places, always lies in [0, 99.9], and takes the values "90.00",
"85.10", "99.90", "99.90" at p = 300, 301, 1000, 0. -/
theorem getVerdict_confidence_spec :
    (∀ data : SensorData,
      confidenceOf data =
        (if data.mq3 > 300 then min 99.9 (85 + (data.mq3 - 300) * 0.1)
          else min 99.9 (90 + (300 - data.mq3) * 0.05)) ∧
      (getVerdict data).confidence = toFixed2 (confidenceOf data) ∧
      0 ≤ confidenceOf data ∧ confidenceOf data ≤ 99.9) ∧
    (getVerdict ⟨300, 0, 0, 0⟩).confidence = "90.00" ∧
    (getVerdict ⟨301, 0, 0, 0⟩).confidence = "85.10" ∧
    (getVerdict ⟨1000, 0, 0, 0⟩).confidence = "99.90" ∧
    (getVerdict ⟨0, 0, 0, 0⟩).confidence = "99.90" := by
  have hval : ∀ data : SensorData,
      confidenceOf data =
        (if data.mq3 > 300 then min 99.9 (85 + (data.mq3 - 300) * 0.1)
          else min 99.9 (90 + (300 - data.mq3) * 0.05)) := by
    intro data
    by_cases h : data.mq3 > 300 <;> simp [confidenceOf, h, jsMin_eq_min]
  refine ⟨fun data => ⟨hval data, rfl, ?_, ?_⟩, ?_, ?_, ?_, ?_⟩
  · rw [hval data]
    by_cases h : data.mq3 > 300 <;> simp only [h, if_true, if_false, le_min_iff]
    · exact ⟨by norm_num, by nlinarith⟩
    · exact ⟨by norm_num, by push_neg at h; nlinarith⟩
  · rw [hval data]
    by_cases h : data.mq3 > 300 <;> simp [h, min_le_left]
  · show toFixed2 (confidenceOf ⟨300, 0, 0, 0⟩) = _
    rw [show confidenceOf ⟨300, 0, 0, 0⟩ = 90 by norm_num [confidenceOf, jsMin]]
    rw [toFixed2_eq_fmt 90 9000 (by norm_num) (by norm_num; rfl)]
    decide
  · show toFixed2 (confidenceOf ⟨301, 0, 0, 0⟩) = _
    rw [show confidenceOf ⟨301, 0, 0, 0⟩ = 85.1 by norm_num [confidenceOf, jsMin]]
    rw [toFixed2_eq_fmt 85.1 8510 (by norm_num) (by norm_num; rfl)]
    decide
  · show toFixed2 (confidenceOf ⟨1000, 0, 0, 0⟩) = _
    rw [show confidenceOf ⟨1000, 0, 0, 0⟩ = 99.9 by norm_num [confidenceOf, jsMin]]
    rw [toFixed2_eq_fmt 99.9 9990 (by norm_num) (by norm_num; rfl)]
    decide
  · show toFixed2 (confidenceOf ⟨0, 0, 0, 0⟩) = _
    rw [show confidenceOf ⟨0, 0, 0, 0⟩ = 99.9 by norm_num [confidenceOf, jsMin]]
    rw [toFixed2_eq_fmt 99.9 9990 (by norm_num) (by norm_num; rfl)]
    decide

/-- C8: `getVerdict` is a pure function of the reading that reads only the
mq3 channel: readings agreeing on mq3 get identical verdicts, whatever
their other channels hold. -/
theorem getVerdict_depends_only_on_mq3 (d1 d2 : SensorData) (h : d1.mq3 = d2.mq3) :
    getVerdict d1 = getVerdict d2 := by
  unfold getVerdict confidenceOf
  rw [h]

/-- Witness for C8 at two concrete readings sharing mq3 = 1 but differing in
every secondary channel. -/
theorem getVerdict_depends_only_on_mq3_witness :
    (SensorData.mk 1 2 3 4).mq3 = (SensorData.mk 1 5 6 7).mq3 ∧
    getVerdict ⟨1, 2, 3, 4⟩ = getVerdict ⟨1, 5, 6, 7⟩ :=
  ⟨rfl, getVerdict_depends_only_on_mq3 ⟨1, 2, 3, 4⟩ ⟨1, 5, 6, 7⟩ rfl⟩

/-- Rolling-history append performed by the dataHistory effect (App.tsx
lines 155-165): push the new entry, then shift the oldest entry out when
the length passes 20. -/
def appendHistory {α : Type} (buf : List α) (e : α) : List α :=
  let newHistory := buf ++ [e]
  if newHistory.length > 20 then newHistory.tail else newHistory

/-- A single append keeps the buffer within the 20-entry bound. -/
lemma appendHistory_length_le {α : Type} (buf : List α) (e : α) (h : buf.length ≤ 20) :
    (appendHistory buf e).length ≤ 20 := by
  unfold appendHistory
  by_cases hl : (buf ++ [e]).length > 20
  · rw [if_pos hl]
    simp only [List.length_tail, List.length_append, List.length_singleton]
    omega
  · rw [if_neg hl]
    push_neg at hl
    exact hl

/-- Every buffer obtained from a starting buffer within the bound by a
sequence of appends stays within the bound. -/
lemma appendHistory_foldl_length_le {α : Type} (es : List α) :
    ∀ buf : List α, buf.length ≤ 20 → (es.foldl appendHistory buf).length ≤ 20 := by
  induction es with
  | nil => intro buf h; simpa using h
  | cons e es ih =>
    intro buf h
    exact ih _ (appendHistory_length_le buf e h)

/-- C3: on any buffer within the 20-entry invariant, append yields
buffer ++ [entry] truncated from the front to the last 20 elements;
appending the 25 sequential entries 1..25 to the empty buffer leaves
exactly entries 6..25 in order; and every buffer reachable from the empty
buffer by appends has length at most 20. -/
theorem appendHistory_spec :
    (∀ (α : Type) (buf : List α) (e : α), buf.length ≤ 20 →
      appendHistory buf e = (buf ++ [e]).drop ((buf ++ [e]).length - 20)) ∧
    ((List.range' 1 25).foldl appendHistory ([] : List ℕ) = List.range' 6 20) ∧
    (∀ es : List ℕ, (es.foldl appendHistory ([] : List ℕ)).length ≤ 20) := by
  refine ⟨fun α buf e h => ?_, by decide, fun es => appendHistory_foldl_length_le es [] (by simp)⟩
  by_cases hl : (buf ++ [e]).length > 20
  · have hlen : (buf ++ [e]).length = 21 := by
      simp only [List.length_append, List.length_singleton] at hl ⊢
      omega
    unfold appendHistory
    rw [if_pos hl, hlen]
    norm_num
  · unfold appendHistory
    rw [if_neg hl]
    push_neg at hl
    have h0 : (buf ++ [e]).length - 20 = 0 := by omega
    rw [h0, List.drop_zero]

/-- Witness for C3 on a concrete full buffer of 20 entries. -/
theorem appendHistory_spec_witness :
    (List.range' 0 20).length ≤ 20 ∧
    appendHistory (List.range' 0 20) 99 =
      ((List.range' 0 20) ++ [99]).drop (((List.range' 0 20) ++ [99]).length - 20) :=
  ⟨by decide, appendHistory_spec.1 ℕ (List.range' 0 20) 99 (by decide)⟩

/-- Reads the leading decimal digits of a character list, threading the
value and the digit count; returns the value read, how many digits were
consumed, and the remaining characters. -/
def parseDigitsAux : List Char → ℕ → ℕ → ℕ × ℕ × List Char
  | [], acc, n => (acc, n, [])
  | c :: cs, acc, n =>
    if c.isDigit then parseDigitsAux cs (10 * acc + (c.toNat - 48)) (n + 1)
    else (acc, n, c :: cs)

/-- Unsigned decimal numeral, digits with an optional fractional part, as
accepted by the JS `Number` coercion on the plain decimal strings this form
produces; the result is the mantissa together with the number of fraction
digits, and `none` models NaN. -/
def parseUnsigned (cs : List Char) : Option (ℕ × ℕ) :=
  let p1 := parseDigitsAux cs 0 0
  match p1.2.2 with
  | [] => if p1.2.1 = 0 then none else some (p1.1, 0)
  | c :: r2 =>
    if c = '.' then
      let p2 := parseDigitsAux r2 0 0
      if p2.2.2 = [] ∧ 0 < p1.2.1 + p2.2.1 then
        some (p1.1 * 10 ^ p2.2.1 + p2.1, p2.2.1)
      else none
    else none

/-- Sign, mantissa and fraction-digit count of a form string under the JS
`Number` coercion: the empty string is 0, a plain optionally-signed decimal
numeral is parsed, anything else is NaN (`none`).  (Exotic JS numeral forms
such as hex, exponents or surrounding whitespace do not arise from this
form and are out of the modelled fragment.) -/
def jsNumberRep (s : String) : Option (Bool × ℕ × ℕ) :=
  match s.data with
  | [] => some (false, 0, 0)
  | '-' :: cs => (parseUnsigned cs).map (fun p => (true, p))
  | '+' :: cs => (parseUnsigned cs).map (fun p => (false, p))
  | cs => (parseUnsigned cs).map (fun p => (false, p))

/-- Rational value of a parsed sign/mantissa/scale triple. -/
def repToRat (p : Bool × ℕ × ℕ) : ℚ :=
  (if p.1 then -1 else 1) * (p.2.1 : ℚ) / 10 ^ p.2.2

/-- JS `Number(s)` on a form string, as an exact rational; `none` is NaN. -/
def jsNumberOfString (s : String) : Option ℚ :=
  (jsNumberRep s).map repToRat

/-- Value held by one manual-input form field: the DOM change handlers store
strings, `generateRandomManual` stores numbers (App.tsx lines 29-34). -/
inductive FieldValue where
  | str (s : String)
  | num (q : ℚ)
deriving DecidableEq

/-- ManualInputState (App.tsx lines 29-34): the four form fields. -/
structure ManualInputState where
  mq3 : FieldValue
  mq4 : FieldValue
  mq8 : FieldValue
  mq135 : FieldValue
deriving DecidableEq

/-- The coercion `Number(field) || 0` used by handleManualInject (App.tsx
lines 171-174): NaN, and the falsy 0 itself, fall through to 0. -/
def fieldNumberOr0 : FieldValue → ℚ
  | FieldValue.str s => (jsNumberOfString s).getD 0
  | FieldValue.num q => q

/-- Data-source selector (App.tsx line 78). -/
inductive DataSource where
  | simulation
  | manual
deriving DecidableEq

/-- One execution of the setSensorData updater of the simulation interval
(App.tsx lines 125-149).  The parameters rSpike, rDelta, r4, r8, r135 are
the five `Math.random()` draws of lines 127, 129, 139, 140, 141. -/
def tickData (prev : SensorData) (rSpike rDelta r4 r8 r135 : ℚ) : SensorData :=
  let changeMQ3 : ℚ :=
    if rSpike > 0.85 then (if prev.mq3 < 200 then 150 else -100)
    else rDelta * 40 - 20
  { mq3 := max 0 (prev.mq3 + changeMQ3)
    mq4 := max 0 (200 + (r4 * 20 - 10))
    mq8 := max 0 (150 + (r8 * 15 - 7.5))
    mq135 := max 0 (300 + (r135 * 30 - 15)) }

/-- Component state of App (App.tsx lines 75-91) restricted to the fields
the core logic touches, together with the number of live generator
intervals the effect of lines 121-153 has installed. -/
structure AppState where
  isConnected : Bool
  dataSource : DataSource
  sensorData : SensorData
  dataHistory : List HistoryData
  manualInput : ManualInputState
  timerCount : ℕ
deriving DecidableEq

/-- History entry built by the history effect (App.tsx lines 157-160) from
the current reading and a wall-clock display string. -/
def mkEntry (t : String) (d : SensorData) : HistoryData :=
  { time := t, mq3 := d.mq3, mq4 := d.mq4, mq8 := d.mq8, mq135 := d.mq135 }

/-- Net effect of the interval effect (App.tsx lines 121-153) after a render
in which its dependencies changed: the cleanup clears any previous interval
and exactly one new interval is installed when connected in simulation
mode. -/
def reconcileTimer (s : AppState) : AppState :=
  { s with timerCount :=
      if s.isConnected = true ∧ s.dataSource = DataSource.simulation then 1 else 0 }

/-- START button handler (App.tsx line 250). -/
def connectSim (s : AppState) : AppState :=
  reconcileTimer { s with isConnected := true, dataSource := DataSource.simulation }

/-- STOP button handler (App.tsx line 257). -/
def disconnect (s : AppState) : AppState :=
  reconcileTimer { s with isConnected := false }

/-- INJECT button handler handleManualInject (App.tsx lines 167-176),
together with the history append its sensorData update triggers; `t` is the
wall-clock string of that history entry. -/
def handleManualInject (s : AppState) (t : String) : AppState :=
  let d : SensorData :=
    { mq3 := fieldNumberOr0 s.manualInput.mq3
      mq4 := fieldNumberOr0 s.manualInput.mq4
      mq8 := fieldNumberOr0 s.manualInput.mq8
      mq135 := fieldNumberOr0 s.manualInput.mq135 }
  reconcileTimer { s with
    dataSource := DataSource.manual
    isConnected := false
    sensorData := d
    dataHistory := appendHistory s.dataHistory (mkEntry t d) }

/-- Rnd button handler generateRandomManual (App.tsx lines 178-185); the
four parameters are the `Math.random()` draws. -/
def generateRandomManual (s : AppState) (r3 r4 r8 r135 : ℚ) : AppState :=
  { s with manualInput :=
      { mq3 := FieldValue.num ((⌊r3 * 500⌋ : ℤ) : ℚ)
        mq4 := FieldValue.num ((⌊r4 * 400⌋ : ℤ) : ℚ)
        mq8 := FieldValue.num ((⌊r8 * 300⌋ : ℤ) : ℚ)
        mq135 := FieldValue.num ((⌊r135 * 600⌋ : ℤ) : ℚ) } }

/-- One firing of the simulation interval callback (App.tsx lines 124-150),
with the history append it triggers; it can only fire while an interval is
installed, so it is `none` when no timer is live. -/
def generatorTick (s : AppState) (rSpike rDelta r4 r8 r135 : ℚ) (t : String) :
    Option AppState :=
  if s.timerCount = 0 then none
  else
    let d := tickData s.sensorData rSpike rDelta r4 r8 r135
    some { s with
      sensorData := d
      dataHistory := appendHistory s.dataHistory (mkEntry t d) }

/-- Initial component state (App.tsx lines 75-91); on mount the interval
effect ran with isConnected = false, so no timer is installed. -/
def initialState : AppState :=
  { isConnected := false
    dataSource := DataSource.simulation
    sensorData := { mq3 := 45, mq4 := 200, mq8 := 150, mq135 := 300 }
    dataHistory := []
    manualInput := { mq3 := FieldValue.str "", mq4 := FieldValue.str "",
                     mq8 := FieldValue.str "", mq135 := FieldValue.str "" }
    timerCount := 0 }

/-- User-interface and timer events the component reacts to. -/
inductive Event where
  | connect
  | stop
  | inject (t : String)
  | tick (rSpike rDelta r4 r8 r135 : ℚ) (t : String)
  | randomize (r3 r4 r8 r135 : ℚ)
  | editForm (m : ManualInputState)

/-- Single-step transition: how each event updates the component state; a
tick whose interval no longer exists does nothing. -/
def stepEvent (s : AppState) : Event → AppState
  | Event.connect => connectSim s
  | Event.stop => disconnect s
  | Event.inject t => handleManualInject s t
  | Event.tick a b c d e t => (generatorTick s a b c d e t).getD s
  | Event.randomize a b c d => generateRandomManual s a b c d
  | Event.editForm m => { s with manualInput := m }

/-- Runs a sequence of events from a state. -/
def runEvents (s : AppState) (es : List Event) : AppState :=
  es.foldl stepEvent s

/-- Recognises generator-tick events. -/
def Event.isTick : Event → Bool
  | Event.tick _ _ _ _ _ _ => true
  | _ => false

/-- C4: one generator tick adds a uniform [-20, 20) delta to the primary
channel in the non-spike case, a fixed +150 or -100 delta (by whether the
previous primary channel is below 200) in the spike case, clamps the new
primary channel at 0, and regenerates the three secondary channels around
centers 200, 150, 300 with spreads 10, 7.5, 15 independently of their own
previous values. -/
theorem tickData_spec (prev : SensorData) (rSpike rDelta r4 r8 r135 : ℚ)
    (hd0 : 0 ≤ rDelta) (hd1 : rDelta < 1) :
    (¬ rSpike > 0.85 →
      (tickData prev rSpike rDelta r4 r8 r135).mq3 = max 0 (prev.mq3 + (rDelta * 40 - 20)) ∧
      -20 ≤ rDelta * 40 - 20 ∧ rDelta * 40 - 20 < 20) ∧
    (rSpike > 0.85 →
      (tickData prev rSpike rDelta r4 r8 r135).mq3 =
        max 0 (prev.mq3 + (if prev.mq3 < 200 then (150 : ℚ) else -100))) ∧
    ((tickData prev rSpike rDelta r4 r8 r135).mq4 = max 0 (200 + (r4 * 20 - 10)) ∧
      (tickData prev rSpike rDelta r4 r8 r135).mq8 = max 0 (150 + (r8 * 15 - 7.5)) ∧
      (tickData prev rSpike rDelta r4 r8 r135).mq135 = max 0 (300 + (r135 * 30 - 15))) ∧
    (∀ prev' : SensorData,
      (tickData prev' rSpike rDelta r4 r8 r135).mq4 =
        (tickData prev rSpike rDelta r4 r8 r135).mq4 ∧
      (tickData prev' rSpike rDelta r4 r8 r135).mq8 =
        (tickData prev rSpike rDelta r4 r8 r135).mq8 ∧
      (tickData prev' rSpike rDelta r4 r8 r135).mq135 =
        (tickData prev rSpike rDelta r4 r8 r135).mq135) ∧
    (∀ delta : ℚ, -20 ≤ delta → delta < 20 →
      ∃ r : ℚ, 0 ≤ r ∧ r < 1 ∧ r * 40 - 20 = delta) := by
  refine ⟨fun h => ⟨?_, by linarith, by linarith⟩, fun h => ?_,
    ⟨rfl, rfl, rfl⟩, fun prev' => ⟨rfl, rfl, rfl⟩, fun delta h1 h2 => ?_⟩
  · simp [tickData, h]
  · simp [tickData, h]
  · refine ⟨(delta + 20) / 40, div_nonneg (by linarith) (by norm_num), ?_, ?_⟩
    · rw [div_lt_one (by norm_num)]
      linarith
    · field_simp

/-- Witness for C4 with the default initial reading and in-range draws. -/
theorem tickData_spec_witness :
    (0 : ℚ) ≤ 1 / 2 ∧ (1 / 2 : ℚ) < 1 ∧
    (tickData ⟨45, 200, 150, 300⟩ 0 (1 / 2) 0 0 0).mq4 = max 0 (200 + ((0 : ℚ) * 20 - 10)) :=
  ⟨by norm_num, by norm_num,
    (tickData_spec ⟨45, 200, 150, 300⟩ 0 (1 / 2) 0 0 0 (by norm_num) (by norm_num)).2.2.1.1⟩

/-- C10: with draws in [0, 1), the secondary channels of a tick lie in
[190, 210), [142.5, 157.5) and [285, 315), so the max(0, ·) clamp never
changes them and they are strictly positive. -/
theorem tickData_secondary_ranges (prev : SensorData) (rSpike rDelta r4 r8 r135 : ℚ)
    (h40 : 0 ≤ r4) (h41 : r4 < 1) (h80 : 0 ≤ r8) (h81 : r8 < 1)
    (h130 : 0 ≤ r135) (h131 : r135 < 1) :
    ((tickData prev rSpike rDelta r4 r8 r135).mq4 = 200 + (r4 * 20 - 10) ∧
      190 ≤ (tickData prev rSpike rDelta r4 r8 r135).mq4 ∧
      (tickData prev rSpike rDelta r4 r8 r135).mq4 < 210 ∧
      0 < (tickData prev rSpike rDelta r4 r8 r135).mq4) ∧
    ((tickData prev rSpike rDelta r4 r8 r135).mq8 = 150 + (r8 * 15 - 7.5) ∧
      142.5 ≤ (tickData prev rSpike rDelta r4 r8 r135).mq8 ∧
      (tickData prev rSpike rDelta r4 r8 r135).mq8 < 157.5 ∧
      0 < (tickData prev rSpike rDelta r4 r8 r135).mq8) ∧
    ((tickData prev rSpike rDelta r4 r8 r135).mq135 = 300 + (r135 * 30 - 15) ∧
      285 ≤ (tickData prev rSpike rDelta r4 r8 r135).mq135 ∧
      (tickData prev rSpike rDelta r4 r8 r135).mq135 < 315 ∧
      0 < (tickData prev rSpike rDelta r4 r8 r135).mq135) := by
  have e4 : (tickData prev rSpike rDelta r4 r8 r135).mq4 = 200 + (r4 * 20 - 10) := by
    show max 0 (200 + (r4 * 20 - 10)) = _
    exact max_eq_right (by linarith)
  have e8 : (tickData prev rSpike rDelta r4 r8 r135).mq8 = 150 + (r8 * 15 - 7.5) := by
    show max 0 (150 + (r8 * 15 - 7.5)) = _
    exact max_eq_right (by norm_num; linarith)
  have e135 : (tickData prev rSpike rDelta r4 r8 r135).mq135 = 300 + (r135 * 30 - 15) := by
    show max 0 (300 + (r135 * 30 - 15)) = _
    exact max_eq_right (by linarith)
  refine ⟨⟨e4, ?_, ?_, ?_⟩, ⟨e8, ?_, ?_, ?_⟩, ⟨e135, ?_, ?_, ?_⟩⟩
  · rw [e4]; linarith
  · rw [e4]; linarith
  · rw [e4]; linarith
  · rw [e8]; linarith
  · rw [e8]; linarith
  · rw [e8]; linarith
  · rw [e135]; linarith
  · rw [e135]; linarith
  · rw [e135]; linarith

/-- Witness for C10 at mid-range draws. -/
theorem tickData_secondary_ranges_witness :
    ((0 : ℚ) ≤ 1 / 2 ∧ (1 / 2 : ℚ) < 1) ∧
    (tickData ⟨45, 200, 150, 300⟩ 0 0 (1 / 2) (1 / 2) (1 / 2)).mq4 =
      200 + ((1 / 2 : ℚ) * 20 - 10) :=
  ⟨⟨by norm_num, by norm_num⟩,
    (tickData_secondary_ranges ⟨45, 200, 150, 300⟩ 0 0 (1 / 2) (1 / 2) (1 / 2)
      (by norm_num) (by norm_num) (by norm_num) (by norm_num)
      (by norm_num) (by norm_num)).1.1⟩

/-- Evaluation helper: the value of a string form field whose parse result
is known. -/
lemma fieldNumberOr0_eval (s : String) (b : Bool) (m k : ℕ)
    (h : jsNumberRep s = some (b, m, k)) :
    fieldNumberOr0 (FieldValue.str s) = (if b then -1 else 1) * (m : ℚ) / 10 ^ k := by
  simp [fieldNumberOr0, jsNumberOfString, h, repToRat]

/-- C5: manual injection replaces the current reading wholesale with the
coerced form values (blank and non-numeric fields coerce to 0 and raise no
error), and forces source = manual and connected = false; the concrete
inputs mq3 = "abc", mq4 = "50", mq8 = "", mq135 = "10" yield the reading
(0, 50, 0, 10). -/
theorem handleManualInject_spec :
    (∀ (s : AppState) (t : String),
      (handleManualInject s t).sensorData =
        { mq3 := fieldNumberOr0 s.manualInput.mq3
          mq4 := fieldNumberOr0 s.manualInput.mq4
          mq8 := fieldNumberOr0 s.manualInput.mq8
          mq135 := fieldNumberOr0 s.manualInput.mq135 } ∧
      (handleManualInject s t).dataSource = DataSource.manual ∧
      (handleManualInject s t).isConnected = false) ∧
    fieldNumberOr0 (FieldValue.str "abc") = 0 ∧
    fieldNumberOr0 (FieldValue.str "") = 0 ∧
    ((handleManualInject { initialState with manualInput :=
        ⟨FieldValue.str "abc", FieldValue.str "50", FieldValue.str "", FieldValue.str "10"⟩ }
        "t").sensorData = ⟨0, 50, 0, 10⟩ ∧
      (handleManualInject { initialState with manualInput :=
        ⟨FieldValue.str "abc", FieldValue.str "50", FieldValue.str "", FieldValue.str "10"⟩ }
        "t").isConnected = false ∧
      (handleManualInject { initialState with manualInput :=
        ⟨FieldValue.str "abc", FieldValue.str "50", FieldValue.str "", FieldValue.str "10"⟩ }
        "t").dataSource = DataSource.manual) := by
  have habc : fieldNumberOr0 (FieldValue.str "abc") = 0 := by
    simp [fieldNumberOr0, jsNumberOfString, show jsNumberRep "abc" = none from by decide]
  have hblank : fieldNumberOr0 (FieldValue.str "") = 0 := by
    rw [fieldNumberOr0_eval "" false 0 0 (by decide)]
    norm_num
  have h50 : fieldNumberOr0 (FieldValue.str "50") = 50 := by
    rw [fieldNumberOr0_eval "50" false 50 0 (by decide)]
    norm_num
  have h10 : fieldNumberOr0 (FieldValue.str "10") = 10 := by
    rw [fieldNumberOr0_eval "10" false 10 0 (by decide)]
    norm_num
  refine ⟨fun s t => ⟨rfl, rfl, rfl⟩, habc, hblank, ?_, rfl, rfl⟩
  show SensorData.mk (fieldNumberOr0 (FieldValue.str "abc")) (fieldNumberOr0 (FieldValue.str "50"))
      (fieldNumberOr0 (FieldValue.str "")) (fieldNumberOr0 (FieldValue.str "10")) = ⟨0, 50, 0, 10⟩
  rw [habc, hblank, h50, h10]

/-- C6 counterexample: from the initial state, typing the numeric string
"-5" into the mq3 field and pressing INJECT produces a reading whose mq3
channel is negative — manual injection performs no clamping at 0. -/
theorem reading_nonneg_counterexample :
    (runEvents initialState
      [Event.editForm ⟨FieldValue.str "-5", FieldValue.str "0",
        FieldValue.str "0", FieldValue.str "0"⟩,
       Event.inject "t"]).sensorData.mq3 < 0 := by
  show fieldNumberOr0 (FieldValue.str "-5") < 0
  rw [fieldNumberOr0_eval "-5" true 5 0 (by decide)]
  norm_num

/-- C6 amended: the generator tick clamps every channel at 0, so simulated
readings are never negative under any draws; manual injection passes the
coerced field values through unclamped, so an injected channel is
non-negative exactly when its coerced field value is. -/
theorem reading_nonneg_amended :
    (∀ (prev : SensorData) (a b c d e : ℚ),
      0 ≤ (tickData prev a b c d e).mq3 ∧ 0 ≤ (tickData prev a b c d e).mq4 ∧
      0 ≤ (tickData prev a b c d e).mq8 ∧ 0 ≤ (tickData prev a b c d e).mq135) ∧
    (∀ (s : AppState) (t : String),
      (0 ≤ fieldNumberOr0 s.manualInput.mq3 → 0 ≤ (handleManualInject s t).sensorData.mq3) ∧
      (0 ≤ fieldNumberOr0 s.manualInput.mq4 → 0 ≤ (handleManualInject s t).sensorData.mq4) ∧
      (0 ≤ fieldNumberOr0 s.manualInput.mq8 → 0 ≤ (handleManualInject s t).sensorData.mq8) ∧
      (0 ≤ fieldNumberOr0 s.manualInput.mq135 → 0 ≤ (handleManualInject s t).sensorData.mq135)) :=
  ⟨fun _ _ _ _ _ _ =>
    ⟨le_max_left 0 _, le_max_left 0 _, le_max_left 0 _, le_max_left 0 _⟩,
   fun _ _ => ⟨fun h => h, fun h => h, fun h => h, fun h => h⟩⟩

/-- Witness for the amended C6 at the initial state (blank fields coerce
to 0, which is non-negative). -/
theorem reading_nonneg_amended_witness :
    0 ≤ (tickData ⟨45, 200, 150, 300⟩ 0 0 0 0 0).mq3 ∧
    (0 ≤ fieldNumberOr0 initialState.manualInput.mq3 ∧
      0 ≤ (handleManualInject initialState "t").sensorData.mq3) := by
  have h0 : (0 : ℚ) ≤ fieldNumberOr0 initialState.manualInput.mq3 := by
    show (0 : ℚ) ≤ fieldNumberOr0 (FieldValue.str "")
    rw [fieldNumberOr0_eval "" false 0 0 (by decide)]
    norm_num
  exact ⟨(reading_nonneg_amended.1 ⟨45, 200, 150, 300⟩ 0 0 0 0 0).1,
    h0, (reading_nonneg_amended.2 initialState "t").1 h0⟩

/-- Interval bookkeeping the effect of App.tsx lines 121-153 maintains
across renders: exactly one live interval when connected in simulation
mode, none otherwise. -/
def TimerInv (s : AppState) : Prop :=
  s.timerCount =
    if s.isConnected = true ∧ s.dataSource = DataSource.simulation then 1 else 0

/-- Reconciling the effect reestablishes the interval invariant. -/
lemma timerInv_reconcile (s : AppState) : TimerInv (reconcileTimer s) := rfl

/-- Every event preserves the interval invariant. -/
lemma timerInv_step (s : AppState) (h : TimerInv s) (e : Event) :
    TimerInv (stepEvent s e) := by
  cases e with
  | connect => exact timerInv_reconcile _
  | stop => exact timerInv_reconcile _
  | inject t => exact timerInv_reconcile _
  | tick a b c d e t =>
    show TimerInv ((generatorTick s a b c d e t).getD s)
    unfold generatorTick
    by_cases h0 : s.timerCount = 0
    · rw [if_pos h0]
      exact h
    · rw [if_neg h0]
      exact h
  | randomize a b c d => exact h
  | editForm m => exact h

/-- The interval invariant holds along any event sequence. -/
lemma timerInv_run (es : List Event) :
    ∀ s : AppState, TimerInv s → TimerInv (runEvents s es) := by
  induction es with
  | nil => intro s h; exact h
  | cons e es ih => intro s h; exact ih _ (timerInv_step s h e)

/-- In a state with no live interval, any sequence of tick events is a
no-op. -/
lemma ticks_noop (ts : List Event) :
    ∀ s : AppState, s.timerCount = 0 → (∀ e ∈ ts, e.isTick = true) →
      runEvents s ts = s := by
  induction ts with
  | nil => intro s _ _; rfl
  | cons e ts ih =>
    intro s h0 hall
    have he : e.isTick = true := hall e (List.mem_cons_self e ts)
    cases e with
    | connect => simp [Event.isTick] at he
    | stop => simp [Event.isTick] at he
    | inject t => simp [Event.isTick] at he
    | randomize a b c d => simp [Event.isTick] at he
    | editForm m => simp [Event.isTick] at he
    | tick a b c d r t =>
      have hstep : stepEvent s (Event.tick a b c d r t) = s := by
        show (generatorTick s a b c d r t).getD s = s
        unfold generatorTick
        rw [if_pos h0]
        rfl
      have hrw : runEvents s (Event.tick a b c d r t :: ts) =
          runEvents (stepEvent s (Event.tick a b c d r t)) ts := rfl
      rw [hrw, hstep]
      exact ih s h0 fun x hx => hall x (List.mem_cons_of_mem _ hx)

/-- C7: along any event history from the initial state, at most one
generator interval is live; and whenever the state is disconnected or the
source is manual, no interval is live, any tick is impossible
(`generatorTick` returns none), and any number of elapsed tick periods
leaves the state — in particular its current reading — unchanged. -/
theorem generator_stops_when_disconnected_or_manual (es : List Event) :
    (runEvents initialState es).timerCount ≤ 1 ∧
    ((runEvents initialState es).isConnected = false ∨
        (runEvents initialState es).dataSource = DataSource.manual →
      (runEvents initialState es).timerCount = 0 ∧
      (∀ (a b c d e : ℚ) (t : String),
        generatorTick (runEvents initialState es) a b c d e t = none) ∧
      (∀ ts : List Event, (∀ ev ∈ ts, ev.isTick = true) →
        runEvents (runEvents initialState es) ts = runEvents initialState es)) := by
  have hinv : TimerInv (runEvents initialState es) :=
    timerInv_run es initialState rfl
  constructor
  · rw [TimerInv] at hinv
    rw [hinv]
    split <;> norm_num
  · intro hdm
    have h0 : (runEvents initialState es).timerCount = 0 := by
      rw [TimerInv] at hinv
      rw [hinv, if_neg]
      rintro ⟨hc, hs⟩
      rcases hdm with h | h
      · rw [h] at hc
        exact Bool.false_ne_true hc
      · rw [h] at hs
        exact DataSource.noConfusion hs
    refine ⟨h0, fun a b c d e t => ?_, fun ts hall => ticks_noop ts _ h0 hall⟩
    unfold generatorTick
    rw [if_pos h0]

/-- Witness for C7: connect then stop, after which no tick can fire. -/
theorem generator_stops_witness :
    (runEvents initialState [Event.connect, Event.stop]).isConnected = false ∧
    (runEvents initialState [Event.connect, Event.stop]).timerCount = 0 ∧
    generatorTick (runEvents initialState [Event.connect, Event.stop]) 0 0 0 0 0 "t" = none := by
  have hc : (runEvents initialState [Event.connect, Event.stop]).isConnected = false := rfl
  obtain ⟨h0, hnone, -⟩ :=
    (generator_stops_when_disconnected_or_manual [Event.connect, Event.stop]).2 (Or.inl hc)
  exact ⟨hc, h0, hnone 0 0 0 0 0 "t"⟩

/-- C9: randomizing the manual form fills the four fields with independent
uniform integers in [0, 500), [0, 400), [0, 300), [0, 600), and leaves the
active reading, the history buffer, the connection flag, the data source
and the interval count untouched. -/
theorem generateRandomManual_spec (s : AppState) (r3 r4 r8 r135 : ℚ)
    (h30 : 0 ≤ r3) (h31 : r3 < 1) (h40 : 0 ≤ r4) (h41 : r4 < 1)
    (h80 : 0 ≤ r8) (h81 : r8 < 1) (h130 : 0 ≤ r135) (h131 : r135 < 1) :
    (generateRandomManual s r3 r4 r8 r135).manualInput =
      { mq3 := FieldValue.num ((⌊r3 * 500⌋ : ℤ) : ℚ)
        mq4 := FieldValue.num ((⌊r4 * 400⌋ : ℤ) : ℚ)
        mq8 := FieldValue.num ((⌊r8 * 300⌋ : ℤ) : ℚ)
        mq135 := FieldValue.num ((⌊r135 * 600⌋ : ℤ) : ℚ) } ∧
    (0 ≤ ⌊r3 * 500⌋ ∧ ⌊r3 * 500⌋ < 500) ∧
    (0 ≤ ⌊r4 * 400⌋ ∧ ⌊r4 * 400⌋ < 400) ∧
    (0 ≤ ⌊r8 * 300⌋ ∧ ⌊r8 * 300⌋ < 300) ∧
    (0 ≤ ⌊r135 * 600⌋ ∧ ⌊r135 * 600⌋ < 600) ∧
    (generateRandomManual s r3 r4 r8 r135).sensorData = s.sensorData ∧
    (generateRandomManual s r3 r4 r8 r135).dataHistory = s.dataHistory ∧
    (generateRandomManual s r3 r4 r8 r135).isConnected = s.isConnected ∧
    (generateRandomManual s r3 r4 r8 r135).dataSource = s.dataSource ∧
    (generateRandomManual s r3 r4 r8 r135).timerCount = s.timerCount := by
  refine ⟨rfl, ⟨?_, ?_⟩, ⟨?_, ?_⟩, ⟨?_, ?_⟩, ⟨?_, ?_⟩, rfl, rfl, rfl, rfl, rfl⟩
  · exact Int.floor_nonneg.mpr (mul_nonneg h30 (by norm_num))
  · exact Int.floor_lt.mpr (by push_cast; linarith)
  · exact Int.floor_nonneg.mpr (mul_nonneg h40 (by norm_num))
  · exact Int.floor_lt.mpr (by push_cast; linarith)
  · exact Int.floor_nonneg.mpr (mul_nonneg h80 (by norm_num))
  · exact Int.floor_lt.mpr (by push_cast; linarith)
  · exact Int.floor_nonneg.mpr (mul_nonneg h130 (by norm_num))
  · exact Int.floor_lt.mpr (by push_cast; linarith)

/-- Witness for C9 at mid-range draws in the initial state. -/
theorem generateRandomManual_spec_witness :
    ((0 : ℚ) ≤ 1 / 2 ∧ (1 / 2 : ℚ) < 1) ∧
    (generateRandomManual initialState (1 / 2) (1 / 2) (1 / 2) (1 / 2)).sensorData =
      initialState.sensorData :=
  ⟨⟨by norm_num, by norm_num⟩,
    (generateRandomManual_spec initialState (1 / 2) (1 / 2) (1 / 2) (1 / 2)
      (by norm_num) (by norm_num) (by norm_num) (by norm_num)
      (by norm_num) (by norm_num) (by norm_num) (by norm_num)).2.2.2.2.2.1⟩
